import Mathlib

/-!
Shallow embedding of the EBPNet guideline scraper (src/EBPNET/main.py) and
proofs of the spec claims about it.

Python dictionaries parsed from JSON are modelled as association lists of
`String × JValue`; `dict.get` is `dget`/`dgetD`; Python truthiness is
`truthy`.  Exceptions are modelled by `Option`/`Except` results: a function
that can raise returns `none`/`.error` on the inputs where the Python code
raises, and the callers that catch exceptions pattern-match on that result.
External effects (HTTP, the rendering session, the file system) are passed
in as explicit oracles, so every definition stays executable.
-/

/-- A JSON-like Python value, as returned by `response.json()`.  Numbers are
modelled as integers (no claim touches floating point). -/
inductive JValue where
  | null
  | bool (b : Bool)
  | num (n : Int)
  | str (s : String)
  | arr (xs : List JValue)
  | obj (fs : List (String × JValue))

/-- Python truthiness (`if x:`) for a `JValue`. -/
def truthy : JValue → Bool
  | .null => false
  | .bool b => b
  | .num n => n != 0
  | .str s => !s.isEmpty
  | .arr xs => !xs.isEmpty
  | .obj fs => !fs.isEmpty

/-- `d.get(k)`: the value at key `k`, or `none` when the key is absent. -/
def dget (fs : List (String × JValue)) (k : String) : Option JValue :=
  (fs.find? (fun p => p.1 == k)).map (fun p => p.2)

/-- `d.get(k, dflt)`: the value at key `k`, or the default when absent. -/
def dgetD (fs : List (String × JValue)) (k : String) (dflt : JValue) : JValue :=
  (dget fs k).getD dflt

/-- Python `v is False`: true exactly for the boolean `False` object. -/
def isFalseVal : Option JValue → Bool
  | some (.bool false) => true
  | _ => false

/-- Is the value a dict (so that `.get` works on it)? -/
def isObj : JValue → Bool
  | .obj _ => true
  | _ => false

/-- Is the value a string? -/
def isStrVal : JValue → Bool
  | .str _ => true
  | _ => false

/-- The underlying string of a string value (only used under `isStrVal`). -/
def asStr : JValue → String
  | .str s => s
  | _ => ""

mutual

/-- Python `repr` of a value, as used by `str` on containers.  String
escaping is simplified to plain quoting (no claim depends on it). -/
def pyRepr : JValue → String
  | .null => "None"
  | .bool true => "True"
  | .bool false => "False"
  | .num n => toString n
  | .str s => "\x27" ++ s ++ "\x27"
  | .arr xs => "[" ++ pyReprItems xs ++ "]"
  | .obj fs => "\x7b" ++ pyReprEntries fs ++ "\x7d"

/-- Comma-joined `repr`s of list items. -/
def pyReprItems : List JValue → String
  | [] => ""
  | [v] => pyRepr v
  | v :: rest => pyRepr v ++ ", " ++ pyReprItems rest

/-- Comma-joined `key: value` renderings of dict entries. -/
def pyReprEntries : List (String × JValue) → String
  | [] => ""
  | [(k, v)] => "\x27" ++ k ++ "\x27: " ++ pyRepr v
  | (k, v) :: rest => "\x27" ++ k ++ "\x27: " ++ pyRepr v ++ ", " ++ pyReprEntries rest

end

/-- Python `str` of a value: a string is itself, anything else its `repr`. -/
def pyStr : JValue → String
  | .str s => s
  | v => pyRepr v

/-- `https://ebpnet.be` (the `SITE_URL` constant). -/
def SITE_URL : String := "https://ebpnet.be"

/-!  ## Eligibility filter — `filter_public_guidelines`  -/

/-- `filter_public_guidelines` of `src/EBPNET/main.py`: keep a guideline
iff `guideline.get('isLoginOnly') is False and
guideline.get('isRedirectedExternally') is False`. -/
def filter_public_guidelines (guidelines : List (List (String × JValue))) :
    List (List (String × JValue)) :=
  guidelines.filter (fun g =>
    isFalseVal (dget g "isLoginOnly") && isFalseVal (dget g "isRedirectedExternally"))

/-!  ## Record extractor — `extract_guideline_data`

A result of `none` models the Python function raising (which happens when a
present field does not have the shape the code assumes). -/

/-- The tuple `extract_guideline_data` returns.  `title`, `date`,
`source_label`, `source_type` are raw values straight out of `.get`, so they
stay `JValue`; `publisher` and `professions` are always strings. -/
structure ExtractedData where
  title : JValue
  date : JValue
  publisher : String
  professions : String
  source_label : JValue
  source_type : JValue

/-- `pub.get('name', pub.get('label', ''))`. -/
def pubName (fs : List (String × JValue)) : JValue :=
  match dget fs "name" with
  | some v => v
  | none =>
    match dget fs "label" with
    | some v => v
    | none => JValue.str ""

/-- The loop body collecting publisher/profession names: a string entry is
kept as is, a dict entry contributes its `name`/`label`, anything else is
skipped. -/
def collectNames : List JValue → List JValue
  | [] => []
  | .str s :: rest => .str s :: collectNames rest
  | .obj fs :: rest => pubName fs :: collectNames rest
  | _ :: rest => collectNames rest

/-- `sep.join(filter(None, names))`: falsy entries are dropped; the join
raises (`none`) when a kept entry is not a string. -/
def pyJoin (sep : String) (names : List JValue) : Option String :=
  let kept := names.filter truthy
  if kept.all isStrVal then some (String.intercalate sep (kept.map asStr))
  else none

/-- `date = dates.get('publishedBySource', '') if dates else ''`; raises
(`none`) when `dates` is truthy but not a dict. -/
def mkDate (dates : JValue) : Option JValue :=
  if truthy dates then
    match dates with
    | .obj dfs => some (dgetD dfs "publishedBySource" (JValue.str ""))
    | _ => none
  else some (JValue.str "")

/-- The `publishers` block: a truthy list is name-collected and joined with
`" | "`; a truthy non-list is stringified; falsy gives the empty string. -/
def mkPublisher (publishers : JValue) : Option String :=
  if truthy publishers then
    match publishers with
    | .arr l => pyJoin " | " (collectNames l)
    | _ => some (pyStr publishers)
  else some ""

/-- The `metadata`/`professions` block: for a truthy dict `metadata`, a list
of professions is name-collected and joined with `", "`, a string is taken
as is, anything else leaves the empty string; a truthy non-dict raises. -/
def mkProfessions (metadata : JValue) : Option String :=
  if truthy metadata then
    match metadata with
    | .obj mfs =>
      match dgetD mfs "professions" (JValue.arr []) with
      | .arr l => pyJoin ", " (collectNames l)
      | .str s => some s
      | _ => some ""
    | _ => none
  else some ""

/-- `type_info.get(k, '') if type_info else ''`; raises when `type_info` is
truthy but not a dict. -/
def mkTypeField (type_info : JValue) (k : String) : Option JValue :=
  if truthy type_info then
    match type_info with
    | .obj tfs => some (dgetD tfs k (JValue.str ""))
    | _ => none
  else some (JValue.str "")

/-- `extract_guideline_data` of `src/EBPNET/main.py`, with `none` marking
the inputs on which the Python code raises. -/
def extract_guideline_data (guideline : List (String × JValue)) : Option ExtractedData :=
  let title := dgetD guideline "title" (JValue.str "Unknown Title")
  match mkDate (dgetD guideline "dates" (JValue.obj [])) with
  | none => none
  | some date =>
    match mkPublisher (dgetD guideline "publishers" (JValue.arr [])) with
    | none => none
    | some publisher =>
      match mkProfessions (dgetD guideline "metadata" (JValue.obj [])) with
      | none => none
      | some professions =>
        match mkTypeField (dgetD guideline "type" (JValue.obj [])) "label" with
        | none => none
        | some source_label =>
          match mkTypeField (dgetD guideline "type" (JValue.obj [])) "sourceType" with
          | none => none
          | some source_type =>
            some ⟨title, date, publisher, professions, source_label, source_type⟩

/-- A name entry is harmless for `join`: falsy (filtered out) or a string. -/
def nameOk (v : JValue) : Bool := !truthy v || isStrVal v

/-- All collected names of a list are harmless. -/
def namesOk (l : List JValue) : Bool := (collectNames l).all nameOk

/-- A value is safe where the code does `.get` on it after a truthiness
check: falsy, or an actual dict. -/
def shapeOkObj (v : JValue) : Bool := !truthy v || isObj v

/-- The `publishers` value does not make the join raise. -/
def pubsOk : JValue → Bool
  | .arr l => namesOk l
  | _ => true

/-- The `metadata.professions` value does not make the join raise. -/
def profsOk : JValue → Bool
  | .obj mfs =>
    match dgetD mfs "professions" (JValue.arr []) with
    | .arr l => namesOk l
    | _ => true
  | _ => true

/-- The shape conditions under which `extract_guideline_data` cannot raise:
`dates`, `metadata` and `type` are absent, falsy or dicts, and no collected
publisher or profession name is a truthy non-string. -/
def extract_safe (g : List (String × JValue)) : Bool :=
  shapeOkObj (dgetD g "dates" (JValue.obj [])) &&
  pubsOk (dgetD g "publishers" (JValue.arr [])) &&
  shapeOkObj (dgetD g "metadata" (JValue.obj [])) &&
  profsOk (dgetD g "metadata" (JValue.obj [])) &&
  shapeOkObj (dgetD g "type" (JValue.obj []))

/-!  ## Collection fetcher — `fetch_all_guidelines`

Each page request is an oracle `pages : Nat → PageResult`, indexed by the
1-based `page[offset]`.  `.fail` models the request, the status check or the
JSON parse raising; `.ok data` is the parsed response body.  The `while`
loop is given explicit fuel (the Python loop has no bound of its own; the
spec records possible non-termination as an accepted non-goal). -/

/-- Outcome of `requests.get` + `raise_for_status` + `.json()` for a page. -/
inductive PageResult where
  | fail
  | ok (data : JValue)

/-- `int(...)`-comparability for `total_pages > 0 and offset >= total_pages`:
ints compare, bools compare as 0/1, everything else raises `TypeError`. -/
def pyToInt : JValue → Option Int
  | .num n => some n
  | .bool b => some (if b then 1 else 0)
  | _ => none

/-- `all_guidelines.extend(guidelines)`: a list contributes its elements,
a string its characters, a dict its keys; anything else is not iterable
and raises. -/
def extendItems : JValue → Option (List JValue)
  | .arr xs => some xs
  | .str s => some (s.data.map (fun c => JValue.str (String.singleton c)))
  | .obj fs => some (fs.map (fun p => JValue.str p.1))
  | _ => none

/-- The body of the pagination `while` loop.  Every raising step inside the
`try` is modelled by falling back to the accumulator (the `except` clause
breaks out of the loop keeping what was accumulated). -/
def fetchGo (pages : Nat → PageResult) : Nat → Nat → List JValue → List JValue
  | 0, _, acc => acc
  | fuel + 1, offset, acc =>
    match pages offset with
    | .fail => acc
    | .ok data =>
      match data with
      | .obj fields =>
        let gl := dgetD fields "guidelines" (JValue.arr [])
        if truthy gl then
          match extendItems gl with
          | none => acc
          | some items =>
            let acc2 := acc ++ items
            match dgetD fields "pagination" (JValue.obj []) with
            | .obj pfs =>
              match pyToInt (dgetD pfs "totalPages" (JValue.num 0)) with
              | some tp =>
                if 0 < tp ∧ tp ≤ (offset : Int) then acc2
                else fetchGo pages fuel (offset + 1) acc2
              | none => acc2
            | _ => acc2
        else acc
      | _ => acc

/-- `fetch_all_guidelines` of `src/EBPNET/main.py`: paginate from offset 1
accumulating guideline items, for at most `fuel` pages. -/
def fetch_all_guidelines (pages : Nat → PageResult) (fuel : Nat) : List JValue :=
  fetchGo pages fuel 1 []

/-- Page `offset` is consumed and pagination continues past it: the
response parses to a dict, its `guidelines` are truthy and extend the
accumulator with `items`, and the `totalPages` bookkeeping neither raises
nor stops the loop at this offset. -/
def StepOk (pages : Nat → PageResult) (offset : Nat) (items : List JValue) : Prop :=
  ∃ fields pfs tp,
    pages offset = .ok (.obj fields) ∧
    truthy (dgetD fields "guidelines" (JValue.arr [])) = true ∧
    extendItems (dgetD fields "guidelines" (JValue.arr [])) = some items ∧
    dgetD fields "pagination" (JValue.obj []) = .obj pfs ∧
    pyToInt (dgetD pfs "totalPages" (JValue.num 0)) = some tp ∧
    ¬(0 < tp ∧ tp ≤ (offset : Int))

/-- The items of `n` consecutive pages starting at `offset`. -/
def itemsBetween (items : Nat → List JValue) : Nat → Nat → List JValue
  | _, 0 => []
  | offset, n + 1 => items offset ++ itemsBetween items (offset + 1) n

/-!  ## Content archiver — `save_guideline_pdf`

The rendering session, the page under it and the file system are abstracted
into a `PageEnv` oracle.  The outcome records, besides the returned path,
which of the two strategies was invoked, what bytes landed in the output
file, and whether the session was created and torn down — the facts the
claims about the archiver are about. -/

/-- One call's external world: whether session creation and navigation
succeed, which marker elements the detail page exposes, the link's `href`
attribute (`none` models the attribute being absent), the HTTP fetch, the
outcome of `driver.print_page` (already base64-decoded), and whether file
writes succeed. -/
structure PageEnv where
  createOk : Bool
  navOk : Bool
  contentMarker : Bool
  linkMarker : Bool
  linkHref : Option String
  fetch : String → Except Unit (List Nat)
  printPage : Except Unit (List Nat)
  writeOk : Bool

/-- What one `save_guideline_pdf` call did. -/
structure ArchiveOutcome where
  result : String
  printInvoked : Bool
  downloadInvoked : Bool
  written : Option (List Nat)
  sessionCreated : Bool
  sessionQuit : Bool

/-- `_download_linked_pdf` of `src/EBPNET/main.py`.  Raises (`.error`) when
the link element is absent, its `href` is missing or empty, the fetch or
status check fails, or the write fails; on success the written bytes are
exactly the fetched body. -/
def _download_linked_pdf (env : PageEnv) : Except Unit (List Nat) :=
  if env.linkMarker then
    match env.linkHref with
    | none => .error ()
    | some u =>
      if u.isEmpty then .error ()
      else
        match env.fetch u with
        | .error e => .error e
        | .ok body => if env.writeOk then .ok body else .error ()
  else .error ()

/-- `save_guideline_pdf` of `src/EBPNET/main.py`.  The branch structure
mirrors the source: outer `try` / `except` / `finally driver.quit()`, the
15-unit wait for either marker, then an inner `try: find content; print`
whose bare `except:` falls back to `_download_linked_pdf`. -/
def save_guideline_pdf (env : PageEnv) (pdf_path : String) : ArchiveOutcome :=
  if !env.createOk then
    { result := "", printInvoked := false, downloadInvoked := false,
      written := none, sessionCreated := false, sessionQuit := false }
  else if !env.navOk then
    { result := "", printInvoked := false, downloadInvoked := false,
      written := none, sessionCreated := true, sessionQuit := true }
  else if !(env.contentMarker || env.linkMarker) then
    { result := "", printInvoked := false, downloadInvoked := false,
      written := none, sessionCreated := true, sessionQuit := true }
  else if env.contentMarker then
    match env.printPage with
    | .ok bytes =>
      if env.writeOk then
        { result := pdf_path, printInvoked := true, downloadInvoked := false,
          written := some bytes, sessionCreated := true, sessionQuit := true }
      else
        match _download_linked_pdf env with
        | .ok body =>
          { result := pdf_path, printInvoked := true, downloadInvoked := true,
            written := some body, sessionCreated := true, sessionQuit := true }
        | .error _ =>
          { result := "", printInvoked := true, downloadInvoked := true,
            written := none, sessionCreated := true, sessionQuit := true }
    | .error _ =>
      match _download_linked_pdf env with
      | .ok body =>
        { result := pdf_path, printInvoked := true, downloadInvoked := true,
          written := some body, sessionCreated := true, sessionQuit := true }
      | .error _ =>
        { result := "", printInvoked := true, downloadInvoked := true,
          written := none, sessionCreated := true, sessionQuit := true }
  else
    match _download_linked_pdf env with
    | .ok body =>
      { result := pdf_path, printInvoked := false, downloadInvoked := true,
        written := some body, sessionCreated := true, sessionQuit := true }
    | .error _ =>
      { result := "", printInvoked := false, downloadInvoked := true,
        written := none, sessionCreated := true, sessionQuit := true }

/-!  ## Dedup store — `load_processed_guidelines`

The store file is modelled as its header row plus a list of read events:
each event is either a parsed data row or the point where reading raises.
A missing file is `none`. -/

/-- One step of iterating the csv reader: a row, or an exception. -/
inductive ReadStep where
  | row (cells : List String)
  | fail

/-- The readable content of the store file. -/
structure StoreFile where
  header : Option (List String)
  steps : List ReadStep

/-- The expected fixed header (`CSV_HEADER` in the source). -/
def CSV_HEADER : List String :=
  ["title", "published_date", "publisher", "professions",
   "source_label", "source_type", "frontend_url", "pdf_path"]

/-- Column index of the dedup key (`UNIQUE_KEY_COLUMN_INDEX`). -/
def UNIQUE_KEY_COLUMN_INDEX : Nat := 6

/-- The row loop of `load_processed_guidelines`: collect `row[6]` of every
row with more than 6 cells; `none` when an exception interrupts the read
(the caller then discards everything collected). -/
def collectKeys : List ReadStep → Option (List String)
  | [] => some []
  | .fail :: _ => none
  | .row r :: rest =>
    if UNIQUE_KEY_COLUMN_INDEX < r.length then
      (collectKeys rest).map (fun ks => r.getD UNIQUE_KEY_COLUMN_INDEX "" :: ks)
    else collectKeys rest

/-- `load_processed_guidelines` of `src/EBPNET/main.py`.  A missing file,
a missing/empty/mismatched header, or an exception while reading all yield
the empty key collection.  The Python `set` is modelled as the list of
collected keys (membership is what every claim uses). -/
def load_processed_guidelines : Option StoreFile → List String
  | none => []
  | some f =>
    match f.header with
    | none => []
    | some h =>
      if h = [] ∨ h ≠ CSV_HEADER then []
      else (collectKeys f.steps).getD []

/-!  ## Orchestrator — `worker_process_and_save`, `process_guidelines`

The archive step is an oracle `archive : String → JValue → String` standing
for `save_guideline_pdf full_url title` (its totality is the subject of the
archiver claims).  The store effect of a run is modelled as the list of
rows handed to `append_to_csv`; an empty list means the store file is
unchanged. -/

/-- The row a worker appends: the extracted metadata plus
`(frontend_url, pdf_path)`. -/
structure FinalRow where
  data : ExtractedData
  frontend_url : JValue
  pdf_path : String

/-- `guideline.get('frontendUrl', '')`. -/
def frontendUrlOf (g : List (String × JValue)) : JValue :=
  dgetD g "frontendUrl" (JValue.str "")

/-- `full_url = f"{SITE_URL}{frontend_url}" if frontend_url else ''`. -/
def fullUrlOf (g : List (String × JValue)) : String :=
  if truthy (frontendUrlOf g) then SITE_URL ++ pyStr (frontendUrlOf g) else ""

/-- `worker_process_and_save` of `src/EBPNET/main.py`.  Returns the row it
appends, or `none` when the unit's `try` catches an exception (then no row
is appended).  Inside the model, the only raising step is the extractor. -/
def worker_process_and_save (archive : String → JValue → String)
    (g : List (String × JValue)) : Option FinalRow :=
  let title := dgetD g "title" (JValue.str "Unknown Title")
  match extract_guideline_data g with
  | none => none
  | some result_data =>
    let frontend_url := frontendUrlOf g
    let full_url := fullUrlOf g
    let pdf_path := if full_url ≠ "" then archive full_url title else ""
    some ⟨result_data, frontend_url, pdf_path⟩

/-- Python `url in processed_urls` for a `set` of strings: only a string
value can be a member. -/
def pyMem (v : JValue) (processed : List String) : Bool :=
  match v with
  | .str s => processed.contains s
  | _ => false

/-- The pre-dispatch filter of `process_guidelines`: drop guidelines whose
`frontendUrl` is falsy or already in the processed set. -/
def guidelines_to_process (public_guidelines : List (List (String × JValue)))
    (processed_urls : List String) : List (List (String × JValue)) :=
  public_guidelines.filter (fun g =>
    truthy (frontendUrlOf g) && !pyMem (frontendUrlOf g) processed_urls)

/-- `process_guidelines` of `src/EBPNET/main.py`, as the list of rows the
dispatched worker units append to the store (the pool only reorders them;
no claim depends on the interleaving). -/
def process_guidelines (archive : String → JValue → String)
    (public_guidelines : List (List (String × JValue)))
    (processed_urls : List String) : List FinalRow :=
  (guidelines_to_process public_guidelines processed_urls).filterMap
    (worker_process_and_save archive)

/-!  # Helper lemmas  -/

/-- `is False` holds exactly for the boolean value `false`. -/
theorem isFalseVal_eq_true_iff (v : Option JValue) :
    isFalseVal v = true ↔ v = some (JValue.bool false) := by
  cases v with
  | none => simp [isFalseVal]
  | some j =>
    cases j with
    | bool b => cases b <;> simp [isFalseVal]
    | null => simp [isFalseVal]
    | num n => simp [isFalseVal]
    | str s => simp [isFalseVal]
    | arr xs => simp [isFalseVal]
    | obj fs => simp [isFalseVal]

/-- A join over names that are all falsy-or-string cannot raise. -/
theorem pyJoin_isSome {names : List JValue} (h : names.all nameOk = true)
    (sep : String) : (pyJoin sep names).isSome = true := by
  have hall : (names.filter truthy).all isStrVal = true := by
    rw [List.all_eq_true] at h ⊢
    intro v hv
    rw [List.mem_filter] at hv
    have h2 := h v hv.1
    unfold nameOk at h2
    simp [hv.2] at h2
    exact h2
  simp [pyJoin, hall]

/-- `mkDate` cannot raise on a falsy-or-dict value. -/
theorem mkDate_isSome {v : JValue} (h : shapeOkObj v = true) :
    (mkDate v).isSome = true := by
  by_cases htr : truthy v = true
  · have hobj : isObj v = true := by
      unfold shapeOkObj at h
      simpa [htr] using h
    cases v with
    | obj fs => simp [mkDate, htr]
    | null => simp [isObj] at hobj
    | bool b => simp [isObj] at hobj
    | num n => simp [isObj] at hobj
    | str s => simp [isObj] at hobj
    | arr xs => simp [isObj] at hobj
  · have hf : truthy v = false := by revert htr; cases truthy v <;> simp
    simp [mkDate, hf]

/-- `mkTypeField` cannot raise on a falsy-or-dict value. -/
theorem mkTypeField_isSome {v : JValue} (h : shapeOkObj v = true) (k : String) :
    (mkTypeField v k).isSome = true := by
  by_cases htr : truthy v = true
  · have hobj : isObj v = true := by
      unfold shapeOkObj at h
      simpa [htr] using h
    cases v with
    | obj fs => simp [mkTypeField, htr]
    | null => simp [isObj] at hobj
    | bool b => simp [isObj] at hobj
    | num n => simp [isObj] at hobj
    | str s => simp [isObj] at hobj
    | arr xs => simp [isObj] at hobj
  · have hf : truthy v = false := by revert htr; cases truthy v <;> simp
    simp [mkTypeField, hf]

/-- `mkPublisher` cannot raise when the collected names are join-safe. -/
theorem mkPublisher_isSome {v : JValue} (h : pubsOk v = true) :
    (mkPublisher v).isSome = true := by
  by_cases htr : truthy v = true
  · cases v with
    | arr l =>
      have hn : (collectNames l).all nameOk = true := by
        simpa [pubsOk, namesOk] using h
      simpa [mkPublisher, htr] using pyJoin_isSome hn " | "
    | null => simp [mkPublisher, htr]
    | bool b => simp [mkPublisher, htr]
    | num n => simp [mkPublisher, htr]
    | str s => simp [mkPublisher, htr]
    | obj fs => simp [mkPublisher, htr]
  · have hf : truthy v = false := by revert htr; cases truthy v <;> simp
    simp [mkPublisher, hf]

/-- `mkProfessions` cannot raise on a falsy-or-dict `metadata` whose
professions names are join-safe. -/
theorem mkProfessions_isSome {v : JValue} (h1 : shapeOkObj v = true)
    (h2 : profsOk v = true) : (mkProfessions v).isSome = true := by
  by_cases htr : truthy v = true
  · have hobj : isObj v = true := by
      unfold shapeOkObj at h1
      simpa [htr] using h1
    cases v with
    | obj mfs =>
      cases hp : dgetD mfs "professions" (JValue.arr []) with
      | arr l =>
        have hn : (collectNames l).all nameOk = true := by
          simp only [profsOk, hp] at h2
          simpa [namesOk] using h2
        simpa [mkProfessions, htr, hp] using pyJoin_isSome hn ", "
      | null => simp [mkProfessions, htr, hp]
      | bool b => simp [mkProfessions, htr, hp]
      | num n => simp [mkProfessions, htr, hp]
      | str s => simp [mkProfessions, htr, hp]
      | obj fs2 => simp [mkProfessions, htr, hp]
    | null => simp [isObj] at hobj
    | bool b => simp [isObj] at hobj
    | num n => simp [isObj] at hobj
    | str s => simp [isObj] at hobj
    | arr xs => simp [isObj] at hobj
  · have hf : truthy v = false := by revert htr; cases truthy v <;> simp
    simp [mkProfessions, hf]

/-!  # Claim C2 — eligibility filter semantics  -/

/-- C2 counterexample: a guideline explicitly marked `isLoginOnly: false`
but missing the `isRedirectedExternally` flag is excluded by
`filter_public_guidelines`, although the claim says such a guideline is
still kept. -/
theorem filter_public_drops_missing_redirect_flag :
    filter_public_guidelines [[("isLoginOnly", JValue.bool false)]] = [] := by
  rfl

/-- C2 (amended): `filter_public_guidelines` keeps a guideline iff its
`isLoginOnly` flag is explicitly the boolean `false` and its
`isRedirectedExternally` flag is explicitly the boolean `false`; a
guideline missing either flag (or carrying any other value there) is
excluded. -/
theorem filter_public_mem_iff (gs : List (List (String × JValue)))
    (g : List (String × JValue)) :
    g ∈ filter_public_guidelines gs ↔
      g ∈ gs ∧ dget g "isLoginOnly" = some (JValue.bool false) ∧
        dget g "isRedirectedExternally" = some (JValue.bool false) := by
  simp [filter_public_guidelines, List.mem_filter, Bool.and_eq_true,
    isFalseVal_eq_true_iff, and_assoc]

/-- Witness for C2: a guideline with both flags explicitly `false` is kept. -/
theorem filter_public_mem_iff_witness :
    [("isLoginOnly", JValue.bool false), ("isRedirectedExternally", JValue.bool false)] ∈
      filter_public_guidelines
        [[("isLoginOnly", JValue.bool false), ("isRedirectedExternally", JValue.bool false)]] :=
  (filter_public_mem_iff _ _).mpr ⟨List.mem_singleton_self _, rfl, rfl⟩

/-!  # Claim C5 — the record extractor  -/

/-- C5 counterexample: on a guideline whose `dates` field is present but is
a (truthy) string rather than a dict, `extract_guideline_data` raises
(`dates.get` on a string), refuting the claim that it never raises for
fields of unexpected shape. -/
theorem extract_raises_on_nonobject_dates :
    extract_guideline_data [("dates", JValue.str "2020")] = none := by
  rfl

/-- C5 (amended): `extract_guideline_data` never raises provided the
accessed container fields have the shape the code assumes — `dates`,
`metadata` and `type` absent, falsy or dicts, and every collected
publisher/profession name falsy or a string (`extract_safe`).  On such
input each absent field maps to its empty value: `"Unknown Title"` for the
title, `""` for date, publisher, professions, source label and source
type. -/
theorem extract_total_on_wellshaped :
    (∀ g, extract_safe g = true → (extract_guideline_data g).isSome = true) ∧
    extract_guideline_data [] =
      some ⟨JValue.str "Unknown Title", JValue.str "", "", "", JValue.str "", JValue.str ""⟩ ∧
    (∀ g r, extract_guideline_data g = some r →
      (dget g "title" = none → r.title = JValue.str "Unknown Title") ∧
      (dget g "dates" = none → r.date = JValue.str "") ∧
      (dget g "publishers" = none → r.publisher = "") ∧
      (dget g "metadata" = none → r.professions = "") ∧
      (dget g "type" = none → r.source_label = JValue.str "" ∧
        r.source_type = JValue.str "")) := by
  refine ⟨?_, rfl, ?_⟩
  · intro g h
    simp only [extract_safe, Bool.and_eq_true] at h
    obtain ⟨⟨⟨⟨hdates, hpubs⟩, hmeta⟩, hprofs⟩, htype⟩ := h
    obtain ⟨d, hd⟩ := Option.isSome_iff_exists.mp (mkDate_isSome hdates)
    obtain ⟨p, hp⟩ := Option.isSome_iff_exists.mp (mkPublisher_isSome hpubs)
    obtain ⟨pr, hpr⟩ := Option.isSome_iff_exists.mp (mkProfessions_isSome hmeta hprofs)
    obtain ⟨sl, hsl⟩ := Option.isSome_iff_exists.mp (mkTypeField_isSome htype "label")
    obtain ⟨st, hst⟩ := Option.isSome_iff_exists.mp (mkTypeField_isSome htype "sourceType")
    simp [extract_guideline_data, hd, hp, hpr, hsl, hst]
  · intro g r h
    unfold extract_guideline_data at h
    cases h1 : mkDate (dgetD g "dates" (JValue.obj [])) <;> rw [h1] at h
    case none => simp at h
    case some date =>
    cases h2 : mkPublisher (dgetD g "publishers" (JValue.arr [])) <;> rw [h2] at h
    case none => simp at h
    case some publisher =>
    cases h3 : mkProfessions (dgetD g "metadata" (JValue.obj [])) <;> rw [h3] at h
    case none => simp at h
    case some professions =>
    cases h4 : mkTypeField (dgetD g "type" (JValue.obj [])) "label" <;> rw [h4] at h
    case none => simp at h
    case some source_label =>
    cases h5 : mkTypeField (dgetD g "type" (JValue.obj [])) "sourceType" <;> rw [h5] at h
    case none => simp at h
    case some source_type =>
    rw [Option.some.injEq] at h
    subst h
    refine ⟨?_, ?_, ?_, ?_, ?_⟩
    · intro hnone
      show dgetD g "title" (JValue.str "Unknown Title") = JValue.str "Unknown Title"
      simp [dgetD, hnone]
    · intro hnone
      have hd : dgetD g "dates" (JValue.obj []) = JValue.obj [] := by simp [dgetD, hnone]
      rw [hd] at h1
      rw [show mkDate (JValue.obj []) = some (JValue.str "") from rfl] at h1
      exact (Option.some.inj h1).symm
    · intro hnone
      have hd : dgetD g "publishers" (JValue.arr []) = JValue.arr [] := by simp [dgetD, hnone]
      rw [hd] at h2
      rw [show mkPublisher (JValue.arr []) = some "" from rfl] at h2
      exact (Option.some.inj h2).symm
    · intro hnone
      have hd : dgetD g "metadata" (JValue.obj []) = JValue.obj [] := by simp [dgetD, hnone]
      rw [hd] at h3
      rw [show mkProfessions (JValue.obj []) = some "" from rfl] at h3
      exact (Option.some.inj h3).symm
    · intro hnone
      have hd : dgetD g "type" (JValue.obj []) = JValue.obj [] := by simp [dgetD, hnone]
      rw [hd] at h4
      rw [hd] at h5
      rw [show mkTypeField (JValue.obj []) "label" = some (JValue.str "") from rfl] at h4
      rw [show mkTypeField (JValue.obj []) "sourceType" = some (JValue.str "") from rfl] at h5
      exact ⟨(Option.some.inj h4).symm, (Option.some.inj h5).symm⟩

/-- Witness for C5: a guideline with every accessed field absent satisfies
the shape conditions and extracts without raising. -/
theorem extract_total_on_wellshaped_witness :
    (extract_guideline_data []).isSome = true :=
  extract_total_on_wellshaped.1 [] (by decide)

/-!  # Claim C3 — archiver strategy order  -/

/-- C3 counterexample: on a detail page where the primary-content marker is
present but the page-print step fails, the bare inner `except:` of
`save_guideline_pdf` invokes the download-link path as fallback — so the
two strategies are not mutually exclusive as the claim states. -/
theorem archiver_print_failure_invokes_download :
    (⟨true, true, true, false, none, fun _ => Except.error (), Except.error (),
        true⟩ : PageEnv).contentMarker = true ∧
    (save_guideline_pdf
        ⟨true, true, true, false, none, fun _ => Except.error (), Except.error (), true⟩
        "out.pdf").downloadInvoked = true := by
  exact ⟨rfl, rfl⟩

/-- C3 (amended): when the primary-content marker is present and the
page-print step (and its write) succeeds, only the print path runs and the
download-link path is never invoked; when the marker is absent and the
download-link marker is present with a non-empty `href`, a successful
fetch and write, the print path is never invoked and the written output is
byte-for-byte the fetched linked resource's body.  (When the print step
fails, the code falls back to the download path.) -/
theorem archiver_branches_exclusive_on_success (env : PageEnv) (pdf_path : String)
    (bytes body : List Nat) (u : String)
    (hc : env.createOk = true) (hn : env.navOk = true) :
    (env.contentMarker = true → env.printPage = .ok bytes → env.writeOk = true →
      save_guideline_pdf env pdf_path =
        { result := pdf_path, printInvoked := true, downloadInvoked := false,
          written := some bytes, sessionCreated := true, sessionQuit := true }) ∧
    (env.contentMarker = false → env.linkMarker = true → env.linkHref = some u →
      u.isEmpty = false → env.fetch u = .ok body → env.writeOk = true →
      save_guideline_pdf env pdf_path =
        { result := pdf_path, printInvoked := false, downloadInvoked := true,
          written := some body, sessionCreated := true, sessionQuit := true }) := by
  constructor
  · intro hcm hpp hw
    simp [save_guideline_pdf, hc, hn, hcm, hpp, hw]
  · intro hcm hlm hhref hne hfetch hw
    simp [save_guideline_pdf, _download_linked_pdf, hc, hn, hcm, hlm, hhref, hne,
      hfetch, hw]

/-- Witness for C3: a concrete content-marker page whose print succeeds. -/
theorem archiver_branches_exclusive_on_success_witness :
    save_guideline_pdf
        ⟨true, true, true, false, none, fun _ => Except.error (), Except.ok [7], true⟩
        "g.pdf" =
      { result := "g.pdf", printInvoked := true, downloadInvoked := false,
        written := some [7], sessionCreated := true, sessionQuit := true } :=
  (archiver_branches_exclusive_on_success _ "g.pdf" [7] [] "x" rfl rfl).1 rfl rfl rfl

/-!  # Claim C4 — archiver totality and teardown  -/

/-- C4: `save_guideline_pdf` never propagates a failure: it is a total
function whose result is either the empty string (every failure path) or
the output path with bytes actually written; and the rendering session is
torn down exactly when it was created, on every exit path. -/
theorem archiver_total_and_teardown (env : PageEnv) (pdf_path : String) :
    ((save_guideline_pdf env pdf_path).result = "" ∨
      ((save_guideline_pdf env pdf_path).result = pdf_path ∧
        ((save_guideline_pdf env pdf_path).written).isSome = true)) ∧
    (save_guideline_pdf env pdf_path).sessionQuit =
      (save_guideline_pdf env pdf_path).sessionCreated ∧
    (save_guideline_pdf env pdf_path).sessionCreated = env.createOk := by
  unfold save_guideline_pdf
  repeat' split
  all_goals simp_all

/-- Witness for C4 at a concrete environment. -/
theorem archiver_total_and_teardown_witness :
    (save_guideline_pdf
        ⟨true, true, true, false, none, fun _ => Except.error (), Except.ok [0], true⟩
        "p.pdf").sessionCreated = true :=
  (archiver_total_and_teardown
    ⟨true, true, true, false, none, fun _ => Except.error (), Except.ok [0], true⟩
    "p.pdf").2.2

/-!  # Claim C6 — pagination stops at a failed page with a partial result  -/

/-- A consumed page advances the loop: one unit of fuel is spent and the
page's items land at the end of the accumulator. -/
theorem fetchGo_step {pages : Nat → PageResult} {offset : Nat} {items : List JValue}
    (h : StepOk pages offset items) (fuel : Nat) (acc : List JValue) :
    fetchGo pages (fuel + 1) offset acc = fetchGo pages fuel (offset + 1) (acc ++ items) := by
  obtain ⟨fields, pfs, tp, h1, h2, h3, h4, h5, h6⟩ := h
  simp [fetchGo, h1, h2, h3, h4, h5, h6]

/-- A failing page request breaks the loop with the accumulator as is. -/
theorem fetchGo_fail {pages : Nat → PageResult} {offset : Nat}
    (h : pages offset = .fail) (fuel : Nat) (acc : List JValue) :
    fetchGo pages (fuel + 1) offset acc = acc := by
  simp [fetchGo, h]

/-- The loop invariant behind C6: with enough fuel, `n` consumed pages
followed by a failing one yield the accumulator extended by exactly those
`n` pages' items. -/
theorem fetchGo_accum {pages : Nat → PageResult} (items : Nat → List JValue) :
    ∀ (n fuel offset : Nat) (acc : List JValue), n < fuel →
      pages (offset + n) = .fail →
      (∀ i, offset ≤ i → i < offset + n → StepOk pages i (items i)) →
      fetchGo pages fuel offset acc = acc ++ itemsBetween items offset n := by
  intro n
  induction n with
  | zero =>
    intro fuel offset acc hfuel hfail _
    cases fuel with
    | zero => omega
    | succ m =>
      rw [fetchGo_fail (by simpa using hfail)]
      simp [itemsBetween]
  | succ n ih =>
    intro fuel offset acc hfuel hfail hsteps
    cases fuel with
    | zero => omega
    | succ m =>
      have hstep := hsteps offset (Nat.le_refl _) (by omega)
      rw [fetchGo_step hstep]
      rw [ih m (offset + 1) (acc ++ items offset) (by omega)
        (by rw [show offset + 1 + n = offset + (n + 1) by omega]; exact hfail)
        (fun i hi1 hi2 => hsteps i (by omega) (by omega))]
      simp [itemsBetween, List.append_assoc]

/-- C6: `fetch_all_guidelines` never fails on an individual page failure —
when page `k` fails (request, status check or JSON parse) and all pages
before it were consumed, pagination terminates there and the result is
exactly the items accumulated from pages `1 .. k-1` (a partial result,
not an error). -/
theorem fetch_stops_at_failed_page (pages : Nat → PageResult)
    (items : Nat → List JValue) (k fuel : Nat) (hk : 1 ≤ k) (hfuel : k ≤ fuel)
    (hfail : pages k = .fail)
    (hsteps : ∀ i, 1 ≤ i → i < k → StepOk pages i (items i)) :
    fetch_all_guidelines pages fuel = itemsBetween items 1 (k - 1) := by
  unfold fetch_all_guidelines
  have := fetchGo_accum items (k - 1) fuel 1 [] (by omega)
    (by rw [show 1 + (k - 1) = k by omega]; exact hfail)
    (fun i hi1 hi2 => hsteps i hi1 (by omega))
  simpa using this

/-- Witness for C6: the very first page failing yields the empty result. -/
theorem fetch_stops_at_failed_page_witness :
    fetch_all_guidelines (fun _ => PageResult.fail) 1 = itemsBetween (fun _ => []) 1 0 :=
  fetch_stops_at_failed_page (fun _ => PageResult.fail) (fun _ => []) 1 1
    (by decide) (by decide) rfl (fun i hi1 hi2 => absurd (Nat.lt_of_le_of_lt hi1 hi2) (by omega))

/-!  # Claim C1 — second run against an unchanged collection  -/

/-- C1: if every eligible guideline's `frontendUrl` is already in the
processed-key set loaded at Init, `process_guidelines` dispatches no units
(the to-process list is empty) and appends nothing to the store. -/
theorem pipeline_second_run_appends_nothing (archive : String → JValue → String)
    (public_guidelines : List (List (String × JValue))) (processed_urls : List String)
    (h : ∀ g ∈ public_guidelines, pyMem (frontendUrlOf g) processed_urls = true) :
    guidelines_to_process public_guidelines processed_urls = [] ∧
    process_guidelines archive public_guidelines processed_urls = [] := by
  have hnil : guidelines_to_process public_guidelines processed_urls = [] := by
    unfold guidelines_to_process
    rw [List.filter_eq_nil_iff]
    intro g hg
    simp [h g hg]
  exact ⟨hnil, by unfold process_guidelines; rw [hnil]; rfl⟩

/-- Witness for C1: one public guideline whose url the store already has. -/
theorem pipeline_second_run_appends_nothing_witness :
    guidelines_to_process [[("frontendUrl", JValue.str "/a")]] ["/a"] = [] ∧
    process_guidelines (fun _ _ => "") [[("frontendUrl", JValue.str "/a")]] ["/a"] = [] :=
  pipeline_second_run_appends_nothing (fun _ _ => "") _ _ (by decide)

/-!  # Claim C7 — capture failure still appends a metadata row  -/

/-- C7: when the content capture of a dispatched item fails (the archive
call returns the empty string), the worker unit still appends a row
carrying the item's extracted metadata, its `frontendUrl`, and an empty
`pdf_path`; the failure never suppresses the append and never escapes the
unit (the worker returns a row, it does not raise). -/
theorem worker_appends_on_capture_failure (archive : String → JValue → String)
    (g : List (String × JValue)) (d : ExtractedData)
    (hx : extract_guideline_data g = some d)
    (ha : archive (fullUrlOf g) (dgetD g "title" (JValue.str "Unknown Title")) = "") :
    worker_process_and_save archive g = some ⟨d, frontendUrlOf g, ""⟩ := by
  have hpdf : (if fullUrlOf g ≠ "" then
      archive (fullUrlOf g) (dgetD g "title" (JValue.str "Unknown Title")) else "") = "" := by
    split
    · exact ha
    · rfl
  unfold worker_process_and_save
  rw [hx]
  show some (⟨d, frontendUrlOf g,
      if fullUrlOf g ≠ "" then
        archive (fullUrlOf g) (dgetD g "title" (JValue.str "Unknown Title"))
      else ""⟩ : FinalRow) = some ⟨d, frontendUrlOf g, ""⟩
  rw [hpdf]

/-- Witness for C7: an always-failing archive still yields a full row. -/
theorem worker_appends_on_capture_failure_witness :
    worker_process_and_save (fun _ _ => "") [("frontendUrl", JValue.str "/a")] =
      some ⟨⟨JValue.str "Unknown Title", JValue.str "", "", "", JValue.str "",
        JValue.str ""⟩, JValue.str "/a", ""⟩ :=
  worker_appends_on_capture_failure (fun _ _ => "") _ _ rfl rfl

/-!  # Claim C9 — persisted rows carry a non-empty detail url  -/

/-- C9: guidelines whose `frontendUrl` is absent or empty (falsy) are
dropped before dispatch, and every row a worker unit appends carries the
truthy — in particular not-empty-string — `frontendUrl` of one of the
collection's guidelines in its `frontend_url` column. -/
theorem persisted_rows_have_nonempty_url :
    (∀ (archive : String → JValue → String)
       (public_guidelines : List (List (String × JValue)))
       (processed_urls : List String) (row : FinalRow),
       row ∈ process_guidelines archive public_guidelines processed_urls →
       truthy row.frontend_url = true ∧ row.frontend_url ≠ JValue.str "" ∧
       ∃ g ∈ public_guidelines, row.frontend_url = frontendUrlOf g) ∧
    (∀ (public_guidelines : List (List (String × JValue)))
       (processed_urls : List String) (g : List (String × JValue)),
       g ∈ public_guidelines → truthy (frontendUrlOf g) = false →
       g ∉ guidelines_to_process public_guidelines processed_urls) := by
  constructor
  · intro archive pub proc row hrow
    unfold process_guidelines at hrow
    rw [List.mem_filterMap] at hrow
    obtain ⟨g, hg, hwg⟩ := hrow
    have hgp := hg
    unfold guidelines_to_process at hgp
    rw [List.mem_filter, Bool.and_eq_true] at hgp
    obtain ⟨hgpub, htr, _⟩ := hgp
    have hfu : row.frontend_url = frontendUrlOf g := by
      unfold worker_process_and_save at hwg
      cases hx : extract_guideline_data g <;> rw [hx] at hwg
      case none => simp at hwg
      case some d =>
        rw [Option.some.injEq] at hwg
        rw [← hwg]
    refine ⟨by rw [hfu]; exact htr, ?_, ⟨g, hgpub, hfu⟩⟩
    rw [hfu]
    intro hcontra
    rw [hcontra] at htr
    exact absurd htr (by decide)
  · intro pub proc g hgpub hfalse hmem
    unfold guidelines_to_process at hmem
    rw [List.mem_filter, Bool.and_eq_true] at hmem
    exact absurd hmem.2.1 (by simp [hfalse])

/-- Witness for C9: a guideline with no `frontendUrl` is not dispatched. -/
theorem persisted_rows_have_nonempty_url_witness :
    ([] : List (String × JValue)) ∉ guidelines_to_process [[]] [] :=
  persisted_rows_have_nonempty_url.2 [[]] [] [] (List.mem_singleton_self _) rfl

/-!  # Claim C8 — lenient store loading  -/

/-- Reading a store made only of full-width rows collects exactly the
key column. -/
theorem collectKeys_map_rows (rows : List (List String))
    (h : ∀ r ∈ rows, r.length = CSV_HEADER.length) :
    collectKeys (rows.map ReadStep.row) =
      some (rows.map (fun r => r.getD UNIQUE_KEY_COLUMN_INDEX "")) := by
  induction rows with
  | nil => rfl
  | cons r rest ih =>
    have hr : UNIQUE_KEY_COLUMN_INDEX < r.length := by
      rw [h r (by simp)]
      decide
    have hrest := ih (fun x hx => h x (by simp [hx]))
    simp [collectKeys, hr, hrest]

/-- C8: `load_processed_guidelines` is total and lenient — a missing store
file yields the empty key set, a store whose header row differs from the
expected fixed header yields the empty key set rather than an error, and a
well-formed store (expected header, full-width data rows) yields exactly
the values of the `frontend_url` column of its data rows. -/
theorem load_processed_lenient_and_exact :
    load_processed_guidelines none = [] ∧
    (∀ f : StoreFile, f.header ≠ some CSV_HEADER →
      load_processed_guidelines (some f) = []) ∧
    (∀ rows : List (List String), (∀ r ∈ rows, r.length = CSV_HEADER.length) →
      load_processed_guidelines (some ⟨some CSV_HEADER, rows.map ReadStep.row⟩) =
        rows.map (fun r => r.getD UNIQUE_KEY_COLUMN_INDEX "")) := by
  refine ⟨rfl, ?_, ?_⟩
  · intro f hf
    obtain ⟨hdr, steps⟩ := f
    simp only [load_processed_guidelines]
    cases hdr with
    | none => rfl
    | some h =>
      have hne : h ≠ CSV_HEADER := fun he => hf (by simp [he])
      simp [hne]
  · intro rows h
    simp only [load_processed_guidelines]
    have hcond : ¬(CSV_HEADER = [] ∨ CSV_HEADER ≠ CSV_HEADER) := by decide
    rw [if_neg hcond, collectKeys_map_rows rows h]
    rfl

/-- Witness for C8: a one-row well-formed store yields that row's key. -/
theorem load_processed_lenient_and_exact_witness :
    load_processed_guidelines
      (some ⟨some CSV_HEADER,
        [ReadStep.row ["t", "d", "p", "f", "sl", "st", "/u", "pp"]]⟩) = ["/u"] :=
  Eq.trans
    (load_processed_lenient_and_exact.2.2 [["t", "d", "p", "f", "sl", "st", "/u", "pp"]]
      (by decide)) rfl

/-!  # Claim C10 — short rows skipped, mid-read failure discards all keys  -/

/-- An exception anywhere in the row stream makes the whole read fail. -/
theorem collectKeys_isNone_of_fail (s1 s2 : List ReadStep) :
    collectKeys (s1 ++ ReadStep.fail :: s2) = none := by
  induction s1 with
  | nil => rfl
  | cons st rest ih =>
    cases st with
    | fail => rfl
    | row r =>
      simp only [List.cons_append, collectKeys, List.append_eq, ih]
      split <;> rfl

/-- A row with at most `UNIQUE_KEY_COLUMN_INDEX` cells contributes no key,
wherever it sits in the stream. -/
theorem collectKeys_skip_short (s1 s2 : List ReadStep) (r : List String)
    (hr : r.length ≤ UNIQUE_KEY_COLUMN_INDEX) :
    collectKeys (s1 ++ ReadStep.row r :: s2) = collectKeys (s1 ++ s2) := by
  induction s1 with
  | nil =>
    simp only [List.nil_append, collectKeys]
    rw [if_neg (by omega)]
  | cons st rest ih =>
    cases st with
    | fail => rfl
    | row r2 =>
      simp only [List.cons_append, collectKeys, List.append_eq, ih]

/-- C10: when reading the store, a data row with fewer than seven fields
contributes no key to the processed set (it is silently skipped), and an
exception raised partway through reading discards all keys collected so
far and yields the empty set. -/
theorem load_short_rows_skipped_fail_discards :
    (∀ (s1 s2 : List ReadStep) (r : List String), r.length < 7 →
      load_processed_guidelines (some ⟨some CSV_HEADER, s1 ++ ReadStep.row r :: s2⟩) =
        load_processed_guidelines (some ⟨some CSV_HEADER, s1 ++ s2⟩)) ∧
    (∀ (s1 s2 : List ReadStep),
      load_processed_guidelines (some ⟨some CSV_HEADER, s1 ++ ReadStep.fail :: s2⟩) = []) := by
  constructor
  · intro s1 s2 r hr
    simp only [load_processed_guidelines]
    rw [collectKeys_skip_short s1 s2 r (by unfold UNIQUE_KEY_COLUMN_INDEX; omega)]
  · intro s1 s2
    simp only [load_processed_guidelines]
    rw [collectKeys_isNone_of_fail]
    split <;> rfl

/-- Witness for C10: a two-cell row ahead of a failure point — the short
row adds nothing, and the failure empties the result. -/
theorem load_short_rows_skipped_fail_discards_witness :
    load_processed_guidelines (some ⟨some CSV_HEADER, [ReadStep.row ["a", "b"]]⟩) =
      load_processed_guidelines (some ⟨some CSV_HEADER, ([] : List ReadStep)⟩) :=
  load_short_rows_skipped_fail_discards.1 [] [] ["a", "b"] (by decide)
